import Mathlib

/-!
Shallow embedding of `roapi/src/startup.rs`: the composition root of the
roapi multi-protocol query server.  Pure data flow of `Application::build`
and `Application::run_until_stopped` is translated into Lean functions over
an explicit environment of collaborator outcomes (the collaborators —
`RawRoapiContext::new`, the three protocol server constructors, and the
`load_table` / `refresh_tables` capability — live outside this file's
source and are parameters of the model).  The background loops
(`TableReloader::run` and the refresher task spawned in `build`) are
modelled as fuel-indexed event-trace functions, and the registry mutex
discipline of a reloader tick as a small-step transition relation.
-/

namespace Roapi

/-- A named table source descriptor (`columnq::table::TableSource`):
identity is the `name`; the load parameters are abstracted as a `uri`. -/
structure TableSource where
  name : String
  uri : String
deriving DecidableEq, Repr

/-- The slice of `crate::config::Config` consumed by `startup.rs`:
the read-only switch, the optional reload interval (milliseconds), and the
ordered sequence of configured table sources. -/
structure Config where
  disable_read_only : Bool
  reload_interval : Option Nat
  tables : List TableSource
deriving DecidableEq, Repr

/-- A bound socket address, as reported by a protocol server. -/
structure SocketAddr where
  host : String
  port : Nat
deriving DecidableEq, Repr

/-- Outcomes of the external collaborators invoked by `Application::build`:
the `HOST` environment variable, the result of `RawRoapiContext::new`
(whose payload is irrelevant here), the address the Postgres server binds
(its constructor is infallible in the source), and the fallible FlightSQL
and HTTP constructors, which on success yield the server's bound address. -/
structure Env where
  hostVar : Option String
  ctxNew : Except String Unit
  postgresAddr : SocketAddr
  flightSqlNew : Except String SocketAddr
  buildHttp : Except String SocketAddr
deriving Repr

/-- Model of `server::postgres::PostgresServer`: records the host string it
was constructed with and its bound address. -/
structure PostgresServer where
  host : String
  addr : SocketAddr
deriving DecidableEq, Repr

/-- Model of `server::flight_sql::RoapiFlightSqlServer`: records the host
string it was constructed with and its bound address. -/
structure FlightSqlServer where
  host : String
  addr : SocketAddr
deriving DecidableEq, Repr

/-- Model of `server::http::HttpApiServer`: records the host string passed
to `build_http_server` (the bound address is returned separately). -/
structure HttpApiServer where
  host : String
deriving DecidableEq, Repr

/-- One entry step of collecting `(name, source)` pairs into a
`HashMap<String, TableSource>`: inserting an existing key overwrites its
value, a new key is appended. -/
def hmInsert (m : List (String × TableSource)) (k : String) (v : TableSource) :
    List (String × TableSource) :=
  if m.any (fun p => p.1 = k) then
    m.map (fun p => if p.1 = k then (k, v) else p)
  else
    m ++ [(k, v)]

/-- Translation of `config.tables.iter().map(|t| (t.name.clone(), t.clone())).collect()`
into a Rust `HashMap<String, TableSource>`: repeated `hmInsert` over the configured sequence.  The resulting list is the
map's contents; Rust's `HashMap` exposes them keyed, with no guaranteed
iteration order, so only `hmGet` below is meaningful as its observable. -/
def collectTables (ts : List TableSource) : List (String × TableSource) :=
  ts.foldl (fun m t => hmInsert m t.name t) []

/-- Model of `HashMap::get`: the value stored under key `k`, if any. -/
def hmGet (m : List (String × TableSource)) (k : String) : Option TableSource :=
  (m.find? (fun p => p.1 = k)).map Prod.snd

/-- Model of `TableReloader`: its fixed interval and the contents of the
shared `Arc<Mutex<HashMap<String, TableSource>>>` registry it iterates. -/
structure TableReloader where
  reload_interval : Nat
  tables : List (String × TableSource)
deriving DecidableEq, Repr

/-- The background refresher task spawned inside `Application::build`
(concurrent branch): an unconditional loop with a fixed sleep interval. -/
structure BackgroundRefresher where
  interval_ms : Nat
deriving DecidableEq, Repr

/-- Model of `startup::Error`: the typed build error, one variant per fallible
protocol-server constructor, carrying the underlying source error. -/
inductive Error where
  | BuildHttpServer (source : String)
  | BuildFlightSqlServer (source : String)
deriving DecidableEq, Repr

/-- The `Application` struct: bound HTTP address, the HTTP server, the
optional table reloader, and the two boxed runnable servers. -/
structure Application where
  http_addr : SocketAddr
  http_server : HttpApiServer
  table_reloader : Option TableReloader
  postgres_server : PostgresServer
  flight_sql_server : FlightSqlServer
deriving DecidableEq, Repr

/-- Outcome of `Application::build`: a panic (the `.expect` on
`RawRoapiContext::new`), a typed `Err`, or `Ok(application)`. -/
inductive BuildResult where
  | panicked (msg : String)
  | failed (e : Error)
  | ok (app : Application)
deriving DecidableEq, Repr

/-- Whether a build outcome produced an application that wired a reloader. -/
def BuildResult.reloaderWired : BuildResult → Bool
  | .ok app => app.table_reloader.isSome
  | _ => false

/-- Whether a build outcome produced an application at all. -/
def BuildResult.isOk : BuildResult → Bool
  | .ok _ => true
  | _ => false

/-- Result of running `Application::build`: the returned value together
with the refresher task it spawned as a side effect, if any. -/
structure BuildOutput where
  result : BuildResult
  refresher : Option BackgroundRefresher
deriving DecidableEq, Repr

/-- Translation of `Application::build`, step for step from `startup.rs`:
read `HOST` (default `"127.0.0.1"`), `.expect` the context construction,
collect the table registry, then branch on `disable_read_only`.  In the
`true` branch the Postgres server, the optional `TableReloader`, the
FlightSQL server and the HTTP server are constructed against the
lock-guarded context and the refresher loop is spawned; in the `false`
branch the same three servers are constructed against the immutable
context, with no reloader and no refresher. -/
def Application.build (config : Config) (env : Env) : BuildOutput :=
  let default_host := env.hostVar.getD ("127.0.0.1")
  match env.ctxNew with
  | .error _ => ⟨.panicked ("Failed to create Roapi context"), none⟩
  | .ok _ =>
    let tables := collectTables config.tables
    if config.disable_read_only then
      let postgres_server : PostgresServer := ⟨default_host, env.postgresAddr⟩
      let table_reloader := config.reload_interval.map fun reload_interval =>
        ({ reload_interval := reload_interval, tables := tables } : TableReloader)
      match env.flightSqlNew with
      | .error e => ⟨.failed (.BuildFlightSqlServer e), none⟩
      | .ok faddr =>
        let flight_sql_server : FlightSqlServer := ⟨default_host, faddr⟩
        match env.buildHttp with
        | .error e => ⟨.failed (.BuildHttpServer e), none⟩
        | .ok haddr =>
          ⟨.ok { http_addr := haddr
                 http_server := ⟨default_host⟩
                 table_reloader := table_reloader
                 postgres_server := postgres_server
                 flight_sql_server := flight_sql_server },
           some ⟨1000⟩⟩
    else
      let postgres_server : PostgresServer := ⟨default_host, env.postgresAddr⟩
      match env.flightSqlNew with
      | .error e => ⟨.failed (.BuildFlightSqlServer e), none⟩
      | .ok faddr =>
        let flight_sql_server : FlightSqlServer := ⟨default_host, faddr⟩
        match env.buildHttp with
        | .error e => ⟨.failed (.BuildHttpServer e), none⟩
        | .ok haddr =>
          ⟨.ok { http_addr := haddr
                 http_server := ⟨default_host⟩
                 table_reloader := none
                 postgres_server := postgres_server
                 flight_sql_server := flight_sql_server },
           none⟩

/-- Accessor `Application::postgres_addr`. -/
def Application.postgres_addr (app : Application) : SocketAddr :=
  app.postgres_server.addr

/-- Accessor `Application::flight_sql_addr`. -/
def Application.flight_sql_addr (app : Application) : SocketAddr :=
  app.flight_sql_server.addr

/-- The kinds of tasks `run_until_stopped` deals with. -/
inductive TaskKind where
  | postgres
  | flightSql
  | tableReloader
  | backgroundRefresher
  | http
deriving DecidableEq, Repr

/-- What `Application::run_until_stopped` does structurally: which tasks it
spawns in the background, and which task it awaits on the calling context. -/
structure RunPlan where
  spawned : List TaskKind
  awaited : TaskKind
deriving DecidableEq, Repr

/-- Translation of `Application::run_until_stopped`, structural part: spawn the Postgres
server, spawn the FlightSQL server, spawn the reloader if present, then
await the HTTP server on the calling context. -/
def Application.run_until_stopped (app : Application) : RunPlan :=
  { spawned :=
      [TaskKind.postgres, TaskKind.flightSql] ++
        (match app.table_reloader with
         | some _ => [TaskKind.tableReloader]
         | none => [])
    awaited := TaskKind.http }

/-- Runtime outcome of a server's `run()` future: `none` means it runs
forever (the normal case), `some e` means it returned `Err(e)`. -/
structure RunEnv where
  postgresRun : Option String
  flightSqlRun : Option String
  httpRun : Option String
deriving Repr

/-- Outcome of one task of `run_until_stopped`: it either diverges with its
server, or panics through the `.expect` wrapped around the server's error. -/
inductive TaskOutcome where
  | diverges
  | panics (msg : String)
deriving DecidableEq, Repr

/-- Model of `server.run().await.expect(msg)`: an `Err` from the server panics the
task with the given message. -/
def serverTaskOutcome (runResult : Option String) (msg : String) : TaskOutcome :=
  match runResult with
  | none => .diverges
  | some _ => .panics msg

/-- Execution of `run_until_stopped` against given server outcomes: the
structural plan plus the outcome of each of the three server tasks
(each one is an `.expect`, so any server failure panics its task; per the
spec's account of the runtime, a task panic terminates the whole process). -/
structure RunExec where
  plan : RunPlan
  postgresTask : TaskOutcome
  flightSqlTask : TaskOutcome
  httpTask : TaskOutcome
deriving DecidableEq, Repr

/-- Execution of `Application::run_until_stopped` with the runtime outcomes filled in. -/
def Application.runExec (app : Application) (env : RunEnv) : RunExec :=
  { plan := app.run_until_stopped
    postgresTask := serverTaskOutcome env.postgresRun ("Failed to run postgres server")
    flightSqlTask := serverTaskOutcome env.flightSqlRun ("Failed to run FlightSQL server")
    httpTask := serverTaskOutcome env.httpRun ("Failed to start HTTP server") }

/-- Events of one reloader tick: one per registered table, recording the
table name and whether its `load_table` call succeeded or failed. -/
inductive ReloadEvent where
  | loadOk (table_name : String)
  | loadErr (table_name : String) (e : String)
deriving DecidableEq, Repr

/-- The table name an event is about. -/
def ReloadEvent.tableName : ReloadEvent → String
  | .loadOk n => n
  | .loadErr n _ => n

/-- One tick of `TableReloader::run`: iterate the registered
`(name, source)` pairs sequentially, calling `load_table` on each; a
success logs `info`, a failure logs `error`, and iteration continues either
way. -/
def reloaderTick (load : String × TableSource → Except String Unit)
    (tables : List (String × TableSource)) : List ReloadEvent :=
  tables.map fun t =>
    match load t with
    | .ok _ => ReloadEvent.loadOk t.1
    | .error e => ReloadEvent.loadErr t.1 e

/-- The infinite `loop` of `TableReloader::run`, indexed by fuel: the first
`n` ticks, each awaiting the interval timer and then running one tick.
`load` may answer differently on every tick and every table. -/
def TableReloader.runTicks (r : TableReloader)
    (load : Nat → String × TableSource → Except String Unit) :
    Nat → List (List ReloadEvent)
  | 0 => []
  | n + 1 => r.runTicks load n ++ [reloaderTick (load n) r.tables]

/-- Events of the background refresher loop spawned in `build`. -/
inductive RefreshEvent where
  | refreshOk
  | refreshErr (e : String)
  | sleep (ms : Nat)
deriving DecidableEq, Repr

/-- Whether an event is a `refresh_tables` call (successful or failed). -/
def RefreshEvent.isRefreshCall : RefreshEvent → Bool
  | .refreshOk => true
  | .refreshErr _ => true
  | .sleep _ => false

/-- One iteration of the refresher loop: call `refresh_tables`, log the
error if any, then sleep 1000 milliseconds, unconditionally. -/
def refresherIteration (outcome : Except String Unit) : List RefreshEvent :=
  (match outcome with
   | .ok _ => [RefreshEvent.refreshOk]
   | .error e => [RefreshEvent.refreshErr e]) ++ [RefreshEvent.sleep 1000]

/-- The infinite refresher `loop`, indexed by fuel: the first `n`
iterations, with `outcome` supplying each iteration's
`refresh_tables` result. -/
def refresherRun (outcome : Nat → Except String Unit) : Nat → List RefreshEvent
  | 0 => []
  | n + 1 => refresherRun outcome n ++ refresherIteration (outcome n)

/-- State of the shared reloader registry and its mutex during
`TableReloader::run`: the registry contents (the `HashMap` inside the
`Mutex`), whether the reloader's tick currently holds the lock, the
remainder of the iteration snapshot taken when the lock was acquired, and
the log of `load_table` calls issued so far. -/
structure RegState where
  registry : List (String × TableSource)
  locked : Bool
  pending : List (String × TableSource)
  loads : List (String × TableSource)
deriving DecidableEq, Repr

/-- Small-step transitions over the registry state.  `lock` models
`self.tables.lock().await` at the head of the `for` loop: it takes the
mutex and snapshots the registry as the iteration source.  `load` models
one `load_table` call consuming the next pending entry, possible only
while the lock is held.  `unlock` models the guard being dropped when the
`for` loop ends.  `mutate` models any other party writing the registry
through the mutex, possible only while the reloader does not hold it. -/
inductive RegStep : RegState → RegState → Prop where
  | lock (s : RegState) :
      s.locked = false →
      RegStep s { registry := s.registry, locked := true,
                  pending := s.registry, loads := s.loads }
  | load (s : RegState) (t : String × TableSource) (rest : List (String × TableSource)) :
      s.locked = true → s.pending = t :: rest →
      RegStep s { registry := s.registry, locked := true,
                  pending := rest, loads := s.loads ++ [t] }
  | unlock (s : RegState) :
      s.locked = true → s.pending = [] →
      RegStep s { registry := s.registry, locked := false,
                  pending := [], loads := s.loads }
  | mutate (s : RegState) (r : List (String × TableSource)) :
      s.locked = false →
      RegStep s { registry := r, locked := s.locked,
                  pending := s.pending, loads := s.loads }

/-- Step sequences that stay inside one tick: every state reached still
holds the lock. -/
inductive TickSteps : RegState → RegState → Prop where
  | refl (s : RegState) : TickSteps s s
  | step (s s₁ s₂ : RegState) :
      TickSteps s s₁ → RegStep s₁ s₂ → s₂.locked = true → TickSteps s s₂

/-! Concrete fixtures used by counterexamples and witnesses. -/

/-- A sample table source. -/
def srcA : TableSource := ⟨"mytable", "s3://bucket/data.csv"⟩

/-- A collaborator environment in which every constructor succeeds and
`HOST` is unset. -/
def okEnv : Env :=
  { hostVar := none
    ctxNew := Except.ok ()
    postgresAddr := ⟨"127.0.0.1", 5432⟩
    flightSqlNew := Except.ok ⟨"127.0.0.1", 50051⟩
    buildHttp := Except.ok ⟨"127.0.0.1", 8000⟩ }

/-- A configuration with `disable_read_only = true` and a reload interval. -/
def cfgWritable : Config := ⟨true, some 5000, [srcA]⟩

/-- A configuration with `disable_read_only = true` and no reload interval. -/
def cfgWritableNoReload : Config := ⟨true, none, [srcA]⟩

/-- A configuration with `disable_read_only = false` and no reload interval. -/
def cfgReadOnly : Config := ⟨false, none, [srcA]⟩

/-! Theorems. -/

/-- Claim C1, counterexample: with `disable_read_only = true` (and a
configured reload interval), `Application::build` does wire a
`TableReloader` and does spawn the background refresher — the claim's
"construction wires no Table Reloader and no Background Refresher task"
is false for that flag value (the source's branch polarity is the
opposite of the claim's). -/
theorem c1_counterexample :
    cfgWritable.disable_read_only = true ∧
    (Application.build cfgWritable okEnv).result.reloaderWired = true ∧
    (Application.build cfgWritable okEnv).refresher.isSome = true := by
  refine ⟨rfl, ?_, ?_⟩ <;> rfl

/-- Claim C1, amended: when `Application::build` is called with
`disable_read_only = false` (the read-only mode), and the context,
FlightSQL and HTTP constructions succeed, the resulting application has no
`TableReloader`, no background refresher task is spawned, and the HTTP,
Postgres, and FlightSQL servers are all constructed and report the bound
addresses their constructors produced. -/
theorem c1_read_only_wires_no_reload (config : Config) (env : Env)
    (faddr haddr : SocketAddr)
    (hro : config.disable_read_only = false)
    (hctx : env.ctxNew = Except.ok ())
    (hfs : env.flightSqlNew = Except.ok faddr)
    (hhttp : env.buildHttp = Except.ok haddr) :
    ∃ app : Application,
      (Application.build config env).result = BuildResult.ok app ∧
      app.table_reloader = none ∧
      (Application.build config env).refresher = none ∧
      app.http_addr = haddr ∧
      app.postgres_addr = env.postgresAddr ∧
      app.flight_sql_addr = faddr := by
  unfold Application.build
  rw [hctx, hro, hfs, hhttp]
  exact ⟨_, rfl, rfl, rfl, rfl, rfl, rfl⟩

/-- Claim C1 witness: the amended statement at a concrete read-only
configuration and all-success environment. -/
theorem c1_read_only_wires_no_reload_witness :
    ∃ app : Application,
      (Application.build cfgReadOnly okEnv).result = BuildResult.ok app ∧
      app.table_reloader = none ∧
      (Application.build cfgReadOnly okEnv).refresher = none ∧
      app.http_addr = ⟨"127.0.0.1", 8000⟩ ∧
      app.postgres_addr = okEnv.postgresAddr ∧
      app.flight_sql_addr = ⟨"127.0.0.1", 50051⟩ :=
  c1_read_only_wires_no_reload cfgReadOnly okEnv ⟨"127.0.0.1", 50051⟩
    ⟨"127.0.0.1", 8000⟩ rfl rfl rfl rfl

/-- Claim C2, counterexample: with `disable_read_only = false` and no
`reload_interval`, `Application::build` succeeds with no `TableReloader`
but also spawns no background refresher — contradicting the claim that a
refresher task running every second is spawned in that configuration. -/
theorem c2_counterexample :
    cfgReadOnly.disable_read_only = false ∧
    cfgReadOnly.reload_interval = none ∧
    (Application.build cfgReadOnly okEnv).result.isOk = true ∧
    (Application.build cfgReadOnly okEnv).refresher = none := by
  refine ⟨rfl, rfl, ?_, ?_⟩ <;> rfl

/-- Claim C2, amended: when `Application::build` is called with
`disable_read_only = true` and no `reload_interval`, and the fallible
constructions succeed, the resulting application contains no
`TableReloader`, but a background refresher task with a fixed 1000 ms
interval is spawned. -/
theorem c2_refresher_without_reloader (config : Config) (env : Env)
    (faddr haddr : SocketAddr)
    (hro : config.disable_read_only = true)
    (hri : config.reload_interval = none)
    (hctx : env.ctxNew = Except.ok ())
    (hfs : env.flightSqlNew = Except.ok faddr)
    (hhttp : env.buildHttp = Except.ok haddr) :
    ∃ app : Application,
      (Application.build config env).result = BuildResult.ok app ∧
      app.table_reloader = none ∧
      (Application.build config env).refresher = some ⟨1000⟩ := by
  unfold Application.build
  rw [hctx, hro, hfs, hhttp, hri]
  exact ⟨_, rfl, rfl, rfl⟩

/-- Claim C2 witness: the amended statement at a concrete writable
configuration without a reload interval. -/
theorem c2_refresher_without_reloader_witness :
    ∃ app : Application,
      (Application.build cfgWritableNoReload okEnv).result = BuildResult.ok app ∧
      app.table_reloader = none ∧
      (Application.build cfgWritableNoReload okEnv).refresher = some ⟨1000⟩ :=
  c2_refresher_without_reloader cfgWritableNoReload okEnv ⟨"127.0.0.1", 50051⟩
    ⟨"127.0.0.1", 8000⟩ rfl rfl rfl rfl rfl

/-- Claim C5: if the FlightSQL server construction fails, or the HTTP
server construction fails, `Application::build` returns the typed error
naming the failing component (`BuildFlightSqlServer` resp.
`BuildHttpServer`, carrying the source error), and no `Application` value
is created. -/
theorem c5_build_failure_typed (config : Config) (env : Env)
    (hctx : env.ctxNew = Except.ok ()) :
    (∀ e : String, env.flightSqlNew = Except.error e →
      (Application.build config env).result =
        BuildResult.failed (Error.BuildFlightSqlServer e) ∧
      (Application.build config env).result.isOk = false) ∧
    (∀ (e : String) (faddr : SocketAddr),
      env.flightSqlNew = Except.ok faddr → env.buildHttp = Except.error e →
      (Application.build config env).result =
        BuildResult.failed (Error.BuildHttpServer e) ∧
      (Application.build config env).result.isOk = false) := by
  constructor
  · intro e hfs
    unfold Application.build
    rw [hctx, hfs]
    cases hro : config.disable_read_only <;> simp [BuildResult.isOk]
  · intro e faddr hfs hhttp
    unfold Application.build
    rw [hctx, hfs, hhttp]
    cases hro : config.disable_read_only <;> simp [BuildResult.isOk]

/-- Claim C5 witness: at a concrete configuration and environments where
first the FlightSQL and then the HTTP construction fails, `build` returns
the matching typed error and no application. -/
theorem c5_build_failure_typed_witness :
    ((Application.build cfgReadOnly
        { okEnv with flightSqlNew := Except.error ("bind") }).result =
      BuildResult.failed (Error.BuildFlightSqlServer "bind") ∧
     (Application.build cfgReadOnly
        { okEnv with flightSqlNew := Except.error ("bind") }).result.isOk = false) ∧
    ((Application.build cfgReadOnly
        { okEnv with buildHttp := Except.error ("addr in use") }).result =
      BuildResult.failed (Error.BuildHttpServer "addr in use") ∧
     (Application.build cfgReadOnly
        { okEnv with buildHttp := Except.error ("addr in use") }).result.isOk = false) :=
  ⟨(c5_build_failure_typed cfgReadOnly
      { okEnv with flightSqlNew := Except.error ("bind") } rfl).1 ("bind") rfl,
   (c5_build_failure_typed cfgReadOnly
      { okEnv with buildHttp := Except.error ("addr in use") } rfl).2
      ("addr in use") ⟨"127.0.0.1", 50051⟩ rfl rfl⟩

/-- Claim C6: if the data-context construction (`RawRoapiContext::new`)
fails, `Application::build` panics with the `.expect` message
"Failed to create Roapi context" — for every configuration and every other
collaborator outcome — and no error value or application is ever returned
to the caller. -/
theorem c6_ctx_failure_is_fatal (config : Config) (env : Env) (e : String)
    (hctx : env.ctxNew = Except.error e) :
    (Application.build config env).result =
      BuildResult.panicked ("Failed to create Roapi context") ∧
    (Application.build config env).result.isOk = false ∧
    ∀ err : Error, (Application.build config env).result ≠ BuildResult.failed err := by
  unfold Application.build
  rw [hctx]
  exact ⟨rfl, rfl, fun err h => by cases h⟩

/-- Claim C6 witness: the context-failure panic at a concrete input. -/
theorem c6_ctx_failure_is_fatal_witness :
    (Application.build cfgWritable
        { okEnv with ctxNew := Except.error ("io") }).result =
      BuildResult.panicked ("Failed to create Roapi context") ∧
    (Application.build cfgWritable
        { okEnv with ctxNew := Except.error ("io") }).result.isOk = false ∧
    ∀ err : Error,
      (Application.build cfgWritable
        { okEnv with ctxNew := Except.error ("io") }).result ≠ BuildResult.failed err :=
  c6_ctx_failure_is_fatal cfgWritable { okEnv with ctxNew := Except.error ("io") } "io" rfl

/-- Claim C8: whenever `Application::build` returns an application, the
host string handed to the Postgres, FlightSQL, and HTTP server
constructors is in all three cases the value of the `HOST` environment
variable, defaulting to "127.0.0.1" when `HOST` is unset. -/
theorem c8_host_from_env (config : Config) (env : Env) (app : Application)
    (h : (Application.build config env).result = BuildResult.ok app) :
    app.postgres_server.host = env.hostVar.getD ("127.0.0.1") ∧
    app.flight_sql_server.host = env.hostVar.getD ("127.0.0.1") ∧
    app.http_server.host = env.hostVar.getD ("127.0.0.1") ∧
    (env.hostVar = none → app.http_server.host = "127.0.0.1") := by
  unfold Application.build at h
  cases hctx : env.ctxNew with
  | error e => rw [hctx] at h; cases h
  | ok u =>
    rw [hctx] at h
    cases hfs : env.flightSqlNew with
    | error e =>
      cases hro : config.disable_read_only <;> rw [hro, hfs] at h <;> simp at h
    | ok faddr =>
      cases hhttp : env.buildHttp with
      | error e =>
        cases hro : config.disable_read_only <;> rw [hro, hfs, hhttp] at h <;> simp at h
      | ok haddr =>
        cases hro : config.disable_read_only <;> rw [hro, hfs, hhttp] at h <;>
          simp at h <;> subst h <;>
          exact ⟨rfl, rfl, rfl, fun hnone => by rw [hnone]; rfl⟩

/-- The application produced by building `cfgReadOnly` against `okEnv`. -/
def appRO : Application :=
  { http_addr := ⟨"127.0.0.1", 8000⟩
    http_server := ⟨"127.0.0.1"⟩
    table_reloader := none
    postgres_server := ⟨"127.0.0.1", ⟨"127.0.0.1", 5432⟩⟩
    flight_sql_server := ⟨"127.0.0.1", ⟨"127.0.0.1", 50051⟩⟩ }

/-- Claim C8 witness: with `HOST` unset in the environment, a successful
build hands "127.0.0.1" to all three server constructors. -/
theorem c8_host_from_env_witness :
    appRO.postgres_server.host = "127.0.0.1" ∧
    appRO.flight_sql_server.host = "127.0.0.1" ∧
    appRO.http_server.host = "127.0.0.1" ∧
    (okEnv.hostVar = none → appRO.http_server.host = "127.0.0.1") :=
  c8_host_from_env cfgReadOnly okEnv appRO rfl

/-- Claim C7: `run_until_stopped` spawns the Postgres server, the FlightSQL
server, and (exactly when present) the table reloader as background tasks;
it never spawns the background refresher (that task was spawned during
`build`); the HTTP server is the task awaited on the calling context; and a
failure of any of the three servers panics its task through `.expect`
(fatal under the runtime account the spec gives), while a server that keeps
running leaves its task diverging. -/
theorem c7_run_until_stopped_plan (app : Application) (renv : RunEnv) :
    TaskKind.postgres ∈ app.run_until_stopped.spawned ∧
    TaskKind.flightSql ∈ app.run_until_stopped.spawned ∧
    (app.table_reloader.isSome = true →
      TaskKind.tableReloader ∈ app.run_until_stopped.spawned) ∧
    (app.table_reloader = none →
      TaskKind.tableReloader ∉ app.run_until_stopped.spawned) ∧
    TaskKind.backgroundRefresher ∉ app.run_until_stopped.spawned ∧
    app.run_until_stopped.awaited = TaskKind.http ∧
    (∀ e, renv.postgresRun = some e →
      (app.runExec renv).postgresTask =
        TaskOutcome.panics ("Failed to run postgres server")) ∧
    (∀ e, renv.flightSqlRun = some e →
      (app.runExec renv).flightSqlTask =
        TaskOutcome.panics ("Failed to run FlightSQL server")) ∧
    (∀ e, renv.httpRun = some e →
      (app.runExec renv).httpTask =
        TaskOutcome.panics ("Failed to start HTTP server")) ∧
    (renv.httpRun = none → (app.runExec renv).httpTask = TaskOutcome.diverges) := by
  refine ⟨?_, ?_, ?_, ?_, ?_, rfl, ?_, ?_, ?_, ?_⟩
  · cases htr : app.table_reloader <;>
      simp [Application.run_until_stopped, htr]
  · cases htr : app.table_reloader <;>
      simp [Application.run_until_stopped, htr]
  · cases htr : app.table_reloader <;>
      simp [Application.run_until_stopped, htr]
  · intro hnone
    simp [Application.run_until_stopped, hnone]
  · cases htr : app.table_reloader <;>
      simp [Application.run_until_stopped, htr]
  · intro e he
    simp [Application.runExec, serverTaskOutcome, he]
  · intro e he
    simp [Application.runExec, serverTaskOutcome, he]
  · intro e he
    simp [Application.runExec, serverTaskOutcome, he]
  · intro hnone
    simp [Application.runExec, serverTaskOutcome, hnone]

/-- Claim C7 witness: the run plan of the concrete read-only application,
against a runtime in which all three servers fail. -/
theorem c7_run_until_stopped_plan_witness :
    TaskKind.postgres ∈ appRO.run_until_stopped.spawned ∧
    TaskKind.flightSql ∈ appRO.run_until_stopped.spawned ∧
    (appRO.table_reloader.isSome = true →
      TaskKind.tableReloader ∈ appRO.run_until_stopped.spawned) ∧
    (appRO.table_reloader = none →
      TaskKind.tableReloader ∉ appRO.run_until_stopped.spawned) ∧
    TaskKind.backgroundRefresher ∉ appRO.run_until_stopped.spawned ∧
    appRO.run_until_stopped.awaited = TaskKind.http ∧
    (∀ e, (RunEnv.mk (some ("pg")) (some ("fs")) (some ("http"))).postgresRun = some e →
      (appRO.runExec (RunEnv.mk (some ("pg")) (some ("fs")) (some ("http")))).postgresTask =
        TaskOutcome.panics ("Failed to run postgres server")) ∧
    (∀ e, (RunEnv.mk (some ("pg")) (some ("fs")) (some ("http"))).flightSqlRun = some e →
      (appRO.runExec (RunEnv.mk (some ("pg")) (some ("fs")) (some ("http")))).flightSqlTask =
        TaskOutcome.panics ("Failed to run FlightSQL server")) ∧
    (∀ e, (RunEnv.mk (some ("pg")) (some ("fs")) (some ("http"))).httpRun = some e →
      (appRO.runExec (RunEnv.mk (some ("pg")) (some ("fs")) (some ("http")))).httpTask =
        TaskOutcome.panics ("Failed to start HTTP server")) ∧
    ((RunEnv.mk (some ("pg")) (some ("fs")) (some ("http"))).httpRun = none →
      (appRO.runExec (RunEnv.mk (some ("pg")) (some ("fs")) (some ("http")))).httpTask =
        TaskOutcome.diverges) :=
  c7_run_until_stopped_plan appRO (RunEnv.mk (some ("pg")) (some ("fs")) (some ("http")))

/-- Helper: the names of a tick's events are exactly the names of the
registered tables, in registration order, whatever `load` answers. -/
theorem reloaderTick_tableNames (load : String × TableSource → Except String Unit)
    (tables : List (String × TableSource)) :
    (reloaderTick load tables).map ReloadEvent.tableName = tables.map Prod.fst := by
  induction tables with
  | nil => rfl
  | cons t ts ih =>
    cases hl : load t <;>
      simp only [reloaderTick, List.map_cons, ReloadEvent.tableName, hl] <;>
      exact congrArg _ (by simpa [reloaderTick] using ih)

/-- Helper: `n` units of fuel produce exactly `n` ticks. -/
theorem runTicks_length (r : TableReloader)
    (load : Nat → String × TableSource → Except String Unit) (n : Nat) :
    (r.runTicks load n).length = n := by
  induction n with
  | zero => rfl
  | succ n ih => simp [TableReloader.runTicks, ih]

/-- Helper: the `j`-th tick of the reloader loop is the tick computed from
the `j`-th tick's load outcomes over the full registry — errors in earlier
ticks do not change later ones. -/
theorem runTicks_getElem (r : TableReloader)
    (load : Nat → String × TableSource → Except String Unit) (n j : Nat)
    (hj : j < n) :
    (r.runTicks load n)[j]? = some (reloaderTick (load j) r.tables) := by
  induction n with
  | zero => omega
  | succ n ih =>
    rw [TableReloader.runTicks, List.getElem?_append, runTicks_length]
    by_cases h : j < n
    · rw [if_pos h]
      exact ih h
    · have hjn : j = n := by omega
      subst hjn
      rw [if_neg (lt_irrefl j)]
      simp

/-- Claim C3: if, on some tick, `load_table` fails for the table at
position `k`, the tick nevertheless issues one `load_table` call per
registered table, in order, at every position (so also at `k+1..N`): the
event list has one event per table, the event at each position `j` is the
outcome of loading table `j`, and the loop itself runs tick after tick
without ever exiting, whatever the load outcomes. -/
theorem c3_tick_fault_isolation (r : TableReloader)
    (load : Nat → String × TableSource → Except String Unit)
    (i k : Nat) (hk : k < r.tables.length) (e : String)
    (herr : load i (r.tables.get ⟨k, hk⟩) = Except.error e) :
    ((reloaderTick (load i) r.tables).map ReloadEvent.tableName =
        r.tables.map Prod.fst) ∧
    ((reloaderTick (load i) r.tables).length = r.tables.length) ∧
    (∀ j (hj : j < r.tables.length),
      (reloaderTick (load i) r.tables)[j]? =
        some (match load i (r.tables.get ⟨j, hj⟩) with
              | .ok _ => ReloadEvent.loadOk (r.tables.get ⟨j, hj⟩).1
              | .error err => ReloadEvent.loadErr (r.tables.get ⟨j, hj⟩).1 err)) ∧
    (∀ n, (r.runTicks load n).length = n) ∧
    (∀ n j, j < n →
      (r.runTicks load n)[j]? = some (reloaderTick (load j) r.tables)) := by
  refine ⟨reloaderTick_tableNames (load i) r.tables, ?_, ?_, ?_, ?_⟩
  · simp [reloaderTick]
  · intro j hj
    simp only [reloaderTick, List.getElem?_map, List.getElem?_eq_getElem hj,
      List.get_eq_getElem, Option.map_some']
  · exact runTicks_length r load
  · exact fun n j hj => runTicks_getElem r load n j hj

/-- A second sample table source. -/
def srcB : TableSource := ⟨"other", "file:///b.json"⟩

/-- A concrete reloader over two tables. -/
def rlA : TableReloader := ⟨5000, [("mytable", srcA), ("other", srcB)]⟩

/-- A load oracle that fails on the first table and succeeds on the rest. -/
def failFirstLoad : Nat → String × TableSource → Except String Unit :=
  fun _ t => if t.1 = "mytable" then Except.error ("unreachable") else Except.ok ()

/-- Claim C3 witness: the fault-isolation statement at a concrete
two-table reloader whose first table fails to load. -/
theorem c3_tick_fault_isolation_witness :
    ((reloaderTick (failFirstLoad 0) rlA.tables).map ReloadEvent.tableName =
        rlA.tables.map Prod.fst) ∧
    ((reloaderTick (failFirstLoad 0) rlA.tables).length = rlA.tables.length) ∧
    (∀ j (hj : j < rlA.tables.length),
      (reloaderTick (failFirstLoad 0) rlA.tables)[j]? =
        some (match failFirstLoad 0 (rlA.tables.get ⟨j, hj⟩) with
              | .ok _ => ReloadEvent.loadOk (rlA.tables.get ⟨j, hj⟩).1
              | .error err => ReloadEvent.loadErr (rlA.tables.get ⟨j, hj⟩).1 err)) ∧
    (∀ n, (rlA.runTicks failFirstLoad n).length = n) ∧
    (∀ n j, j < n →
      (rlA.runTicks failFirstLoad n)[j]? =
        some (reloaderTick (failFirstLoad j) rlA.tables)) :=
  c3_tick_fault_isolation rlA failFirstLoad 0 0 (by decide) "unreachable" rfl

/-- Helper: `build` spawns the refresher exactly when the build reached the
end of the concurrent (`disable_read_only = true`) branch successfully, and
then always with the fixed 1000 ms interval. -/
theorem build_refresher_eq (config : Config) (env : Env) :
    (Application.build config env).refresher =
      if config.disable_read_only = true ∧
          (Application.build config env).result.isOk = true
      then some ⟨1000⟩ else none := by
  unfold Application.build
  cases hctx : env.ctxNew with
  | error e => simp [BuildResult.isOk]
  | ok u =>
    cases hfs : env.flightSqlNew with
    | error e =>
      cases hro : config.disable_read_only <;> simp [BuildResult.isOk]
    | ok faddr =>
      cases hhttp : env.buildHttp with
      | error e =>
        cases hro : config.disable_read_only <;> simp [BuildResult.isOk]
      | ok haddr =>
        cases hro : config.disable_read_only <;> simp [BuildResult.isOk]

/-- Helper: every refresher iteration contains exactly one
`refresh_tables` call, whatever its outcome. -/
theorem refresherRun_calls (outcome : Nat → Except String Unit) (n : Nat) :
    (refresherRun outcome n).countP RefreshEvent.isRefreshCall = n := by
  induction n with
  | zero => rfl
  | succ n ih =>
    rw [refresherRun, List.countP_append, ih]
    cases h : outcome n <;> simp [refresherIteration, RefreshEvent.isRefreshCall]

/-- Helper: every refresher iteration ends in exactly one 1000 ms sleep,
whatever its outcome. -/
theorem refresherRun_sleeps (outcome : Nat → Except String Unit) (n : Nat) :
    (refresherRun outcome n).count (RefreshEvent.sleep 1000) = n := by
  induction n with
  | zero => rfl
  | succ n ih =>
    rw [refresherRun, List.count_append, ih]
    cases h : outcome n <;> simp [refresherIteration, List.count_cons]

/-- Claim C4: the background refresher is spawned exactly by a successful
concurrent-mode (`disable_read_only = true`) build, always with the fixed
1000 ms interval; and the loop itself performs, in its first `n`
iterations, exactly one `refresh_tables` call and one 1000 ms sleep per
iteration, for every outcome sequence — an error is logged as an event and
never stops the loop. -/
theorem c4_refresher_loop (config : Config) (env : Env)
    (outcome : Nat → Except String Unit) (n : Nat) :
    ((Application.build config env).refresher.isSome = true →
      config.disable_read_only = true) ∧
    (config.disable_read_only = true →
      (Application.build config env).result.isOk = true →
      (Application.build config env).refresher = some ⟨1000⟩) ∧
    (config.disable_read_only = false →
      (Application.build config env).refresher = none) ∧
    (∀ r : BackgroundRefresher,
      (Application.build config env).refresher = some r → r.interval_ms = 1000) ∧
    (refresherRun outcome n).countP RefreshEvent.isRefreshCall = n ∧
    (refresherRun outcome n).count (RefreshEvent.sleep 1000) = n := by
  have heq := build_refresher_eq config env
  refine ⟨?_, ?_, ?_, ?_, refresherRun_calls outcome n, refresherRun_sleeps outcome n⟩
  · intro hsome
    rw [heq] at hsome
    by_cases hc : config.disable_read_only = true ∧
        (Application.build config env).result.isOk = true
    · exact hc.1
    · rw [if_neg hc] at hsome
      cases hsome
  · intro hro hok
    rw [heq, if_pos ⟨hro, hok⟩]
  · intro hro
    rw [heq, if_neg]
    intro hc
    rw [hro] at hc
    cases hc.1
  · intro r hr
    rw [heq] at hr
    by_cases hc : config.disable_read_only = true ∧
        (Application.build config env).result.isOk = true
    · rw [if_pos hc] at hr
      cases hr
      rfl
    · rw [if_neg hc] at hr
      cases hr

/-- Claim C4 witness: the refresher facts at the concrete writable
configuration and an outcome sequence that always fails, over three
iterations. -/
theorem c4_refresher_loop_witness :
    ((Application.build cfgWritable okEnv).refresher.isSome = true →
      cfgWritable.disable_read_only = true) ∧
    (cfgWritable.disable_read_only = true →
      (Application.build cfgWritable okEnv).result.isOk = true →
      (Application.build cfgWritable okEnv).refresher = some ⟨1000⟩) ∧
    (cfgWritable.disable_read_only = false →
      (Application.build cfgWritable okEnv).refresher = none) ∧
    (∀ r : BackgroundRefresher,
      (Application.build cfgWritable okEnv).refresher = some r →
        r.interval_ms = 1000) ∧
    (refresherRun (fun _ => Except.error ("refresh failed")) 3).countP
      RefreshEvent.isRefreshCall = 3 ∧
    (refresherRun (fun _ => Except.error ("refresh failed")) 3).count
      (RefreshEvent.sleep 1000) = 3 :=
  c4_refresher_loop cfgWritable okEnv (fun _ => Except.error ("refresh failed")) 3

/-- Helper: in the overwrite pass of `hmInsert`, looking for the inserted
key finds the inserted pair exactly when the key was present. -/
theorem find_overwrite_hit (m : List (String × TableSource)) (k : String)
    (v : TableSource) :
    (m.map fun p => if p.1 = k then (k, v) else p).find? (fun p => p.1 = k) =
      if (m.any fun p => p.1 = k) then some (k, v) else none := by
  induction m with
  | nil => rfl
  | cons p m ih =>
    by_cases hp : p.1 = k
    · simp [List.find?_cons, List.any_cons, hp]
    · simp [List.find?_cons, List.any_cons, hp, ih]
      have hd : (decide (p.1 = k)) = false := decide_eq_false hp
      rw [hd, Bool.false_or]

/-- Helper: the overwrite pass of `hmInsert` does not change what a lookup
for any other key finds. -/
theorem find_overwrite_miss (m : List (String × TableSource)) (k : String)
    (v : TableSource) (name : String) (hnk : ¬name = k) :
    (m.map fun p => if p.1 = k then (k, v) else p).find? (fun p => p.1 = name) =
      m.find? (fun p => p.1 = name) := by
  induction m with
  | nil => rfl
  | cons p m ih =>
    by_cases hp : p.1 = k
    · simp [List.find?_cons, hp, Ne.symm hnk, ih]
    · by_cases hq : p.1 = name <;> simp [List.find?_cons, hp, hq, hnk, ih]

/-- Helper: looking a key up after one `hmInsert` sees the inserted value
for that key and is unchanged for every other key. -/
theorem hmGet_hmInsert (m : List (String × TableSource)) (k : String)
    (v : TableSource) (name : String) :
    hmGet (hmInsert m k v) name = if name = k then some v else hmGet m name := by
  unfold hmInsert
  by_cases hany : (m.any fun p => p.1 = k) = true
  · rw [if_pos hany]
    by_cases hnk : name = k
    · subst hnk
      unfold hmGet
      rw [find_overwrite_hit, if_pos hany, if_pos rfl]
      rfl
    · unfold hmGet
      rw [find_overwrite_miss m k v name hnk, if_neg hnk]
  · rw [if_neg hany]
    unfold hmGet
    rw [List.find?_append]
    by_cases hnk : name = k
    · subst hnk
      have hm : m.find? (fun p : String × TableSource => decide (p.1 = name)) = none := by
        rw [List.find?_eq_none]
        intro x hx
        simp only [decide_eq_true_eq]
        intro hxk
        exact absurd (List.any_eq_true.mpr ⟨x, hx, by simp [hxk]⟩) hany
      rw [hm, Option.none_or, if_pos rfl]
      simp [List.find?_cons]
    · have hone : List.find? (fun p : String × TableSource => decide (p.1 = name))
          [(k, v)] = none := by
        simp [List.find?_cons, Ne.symm hnk]
      rw [hone, Option.or_none, if_neg hnk]

/-- Helper: looking up the registry built by folding `hmInsert` over the
configured sequence finds the latest configured source for the key, falling
back to the accumulator for keys the sequence never mentions. -/
theorem hmGet_foldl (ts : List TableSource) (acc : List (String × TableSource))
    (name : String) :
    hmGet (ts.foldl (fun m t => hmInsert m t.name t) acc) name =
      Option.or (ts.reverse.find? (fun t => t.name = name)) (hmGet acc name) := by
  induction ts generalizing acc with
  | nil => simp [Option.none_or]
  | cons t ts ih =>
    rw [List.foldl_cons, ih, List.reverse_cons, List.find?_append, Option.or_assoc]
    congr 1
    rw [hmGet_hmInsert]
    by_cases hnt : name = t.name
    · have : List.find? (fun s : TableSource => decide (s.name = name)) [t] = some t := by
        simp [List.find?_cons, hnt.symm]
      rw [if_pos hnt, this]
      rfl
    · have : List.find? (fun s : TableSource => decide (s.name = name)) [t] = none := by
        simp [List.find?_cons, Ne.symm hnt]
      rw [if_neg hnt, this, Option.none_or]

/-- A configured sequence with a duplicated table name. -/
def dupTables : List TableSource := [⟨"t", "u1"⟩, ⟨"s", "u2"⟩, ⟨"t", "u3"⟩]

/-- Claim C9: the registry built by `build` is keyed by table name — a
lookup returns exactly the latest configured source carrying that name
(first hit in the reversed sequence), so earlier duplicates are dropped;
concretely, for a sequence configuring "t" twice, the lookup yields the
later source, the earlier source is nowhere among the registry's values,
and the registry's contents are not the configured sequence. -/
theorem c9_registry_last_wins (ts : List TableSource) (name : String) :
    hmGet (collectTables ts) name = ts.reverse.find? (fun t => t.name = name) ∧
    hmGet (collectTables dupTables) "t" = some ⟨"t", "u3"⟩ ∧
    ((collectTables dupTables).map Prod.snd).contains ⟨"t", "u1"⟩ = false ∧
    (collectTables dupTables).map Prod.snd ≠ dupTables := by
  refine ⟨?_, by decide, by decide, by decide⟩
  rw [collectTables, hmGet_foldl]
  simp [hmGet]

/-- Claim C9 witness: the lookup law evaluated at the duplicated sequence
and the duplicated name. -/
theorem c9_registry_last_wins_witness :
    hmGet (collectTables dupTables) "t" =
      dupTables.reverse.find? (fun t => t.name = "t") ∧
    hmGet (collectTables dupTables) "t" = some ⟨"t", "u3"⟩ ∧
    ((collectTables dupTables).map Prod.snd).contains ⟨"t", "u1"⟩ = false ∧
    (collectTables dupTables).map Prod.snd ≠ dupTables :=
  c9_registry_last_wins dupTables ("t")

/-- Helper: if dropping `k` elements uncovers `t :: rest`, then taking one
more element appends exactly `t`, and dropping one more leaves `rest`. -/
theorem take_drop_step (l : List (String × TableSource)) (k : Nat)
    (t : String × TableSource) (rest : List (String × TableSource))
    (h : l.drop k = t :: rest) :
    l.take (k + 1) = l.take k ++ [t] ∧ l.drop (k + 1) = rest := by
  induction l generalizing k with
  | nil => rw [List.drop_nil] at h; cases h
  | cons a as ih =>
    cases k with
    | zero =>
      simp only [List.drop_zero] at h
      injection h with h1 h2
      subst h1
      subst h2
      simp
    | succ k =>
      simp only [List.drop_succ_cons] at h
      obtain ⟨h1, h2⟩ := ih k h
      simp [List.take_succ_cons, List.drop_succ_cons, h1, h2]

/-- Helper: from any locked state, a step sequence that keeps the lock held
leaves the registry untouched (no `mutate` step can interleave) and only
consumes the pending snapshot in order, appending exactly the consumed
prefix to the load log. -/
theorem tickSteps_snapshot (s s₂ : RegState) (h : s.locked = true)
    (hs : TickSteps s s₂) :
    s₂.registry = s.registry ∧ s₂.locked = true ∧
    ∃ k, s₂.loads = s.loads ++ s.pending.take k ∧
         s₂.pending = s.pending.drop k := by
  induction hs with
  | refl => exact ⟨rfl, h, 0, by simp, by simp⟩
  | step s₁ s₂ hts hstep hlocked ih =>
    obtain ⟨hreg, hlk, k, hloads, hpend⟩ := ih
    cases hstep with
    | lock hfalse =>
      rw [hlk] at hfalse
      exact Bool.noConfusion hfalse
    | load t rest hl hp =>
      refine ⟨hreg, rfl, k + 1, ?_, ?_⟩
      · rw [hpend] at hp
        obtain ⟨htake, hdrop⟩ := take_drop_step s.pending k t rest hp
        show s₁.loads ++ [t] = s.loads ++ s.pending.take (k + 1)
        rw [hloads, htake, List.append_assoc]
      · rw [hpend] at hp
        obtain ⟨htake, hdrop⟩ := take_drop_step s.pending k t rest hp
        exact hdrop.symm
    | unlock hl hp =>
      exact Bool.noConfusion hlocked
    | mutate r hfalse =>
      rw [hlk] at hfalse
      exact Bool.noConfusion hfalse

/-- Claim C10: a reloader tick takes the registry mutex once (the `lock`
step at the head of the `for` loop), and every step sequence that stays
inside the tick — the lock continuously held — operates on the single
snapshot taken at acquisition: the registry cannot change mid-tick (the
`mutate` transition requires the lock to be free), the `load_table` calls
issued are exactly a prefix of that snapshot in order, and a completed
iteration has loaded exactly the snapshot. -/
theorem c10_tick_snapshot (s₀ s₁ s₂ : RegState)
    (h₀ : s₀.locked = false) (hlock : RegStep s₀ s₁)
    (h₁ : s₁.locked = true) (hsteps : TickSteps s₁ s₂) :
    s₁.pending = s₀.registry ∧ s₁.registry = s₀.registry ∧
    s₁.loads = s₀.loads ∧
    s₂.registry = s₀.registry ∧ s₂.locked = true ∧
    (∃ k, s₂.loads = s₀.loads ++ s₀.registry.take k ∧
          s₂.pending = s₀.registry.drop k) ∧
    (s₂.pending = [] → s₂.loads = s₀.loads ++ s₀.registry) := by
  cases hlock with
  | lock hf =>
    obtain ⟨hreg, hlk, k, hloads, hpend⟩ := tickSteps_snapshot _ s₂ rfl hsteps
    refine ⟨rfl, rfl, rfl, hreg, hlk, ⟨k, hloads, hpend⟩, ?_⟩
    intro hp
    rw [hpend] at hp
    have hlen := List.drop_eq_nil_iff.mp hp
    rw [hloads, List.take_of_length_le hlen]
  | load t rest hl hp =>
    rw [h₀] at hl
    exact Bool.noConfusion hl
  | unlock hl hp =>
    rw [h₀] at hl
    exact Bool.noConfusion hl
  | mutate r hf =>
    exact absurd h₁ (by simp [h₀])

/-- A table source used by the claim C10 witness. -/
def wSrc : TableSource := ⟨"w", "u"⟩

/-- Claim C10 witness: initial unlocked state, one registered table. -/
def c10s0 : RegState := ⟨[("w", wSrc)], false, [], []⟩

/-- Claim C10 witness: the state right after the tick takes the mutex. -/
def c10s1 : RegState := ⟨[("w", wSrc)], true, [("w", wSrc)], []⟩

/-- Claim C10 witness: the state after the tick's single load. -/
def c10s2 : RegState := ⟨[("w", wSrc)], true, [], [("w", wSrc)]⟩

/-- Claim C10 witness: the snapshot property on a concrete one-table tick
consisting of a lock acquisition followed by one load. -/
theorem c10_tick_snapshot_witness :
    c10s1.pending = c10s0.registry ∧ c10s1.registry = c10s0.registry ∧
    c10s1.loads = c10s0.loads ∧
    c10s2.registry = c10s0.registry ∧ c10s2.locked = true ∧
    (∃ k, c10s2.loads = c10s0.loads ++ c10s0.registry.take k ∧
          c10s2.pending = c10s0.registry.drop k) ∧
    (c10s2.pending = [] → c10s2.loads = c10s0.loads ++ c10s0.registry) :=
  c10_tick_snapshot c10s0 c10s1 c10s2 rfl
    (show RegStep c10s0 c10s1 from RegStep.lock c10s0 rfl) rfl
    (TickSteps.step c10s1 c10s1 c10s2 (TickSteps.refl c10s1)
      (show RegStep c10s1 c10s2 from RegStep.load c10s1 ("w", wSrc) [] rfl rfl) rfl)

end Roapi
